import Mathlib

/-
Shallow embedding of src/function.h: a value-semantic, type-erased callable
container with small-buffer optimization, a per-concrete-type operation
record (copy / move / destroy / invoke), and an empty singleton record.

Modelling choices:
- Concrete C++ types are type identifiers (Nat); each carries its sizeof,
  alignof, whether its move constructor is noexcept, the behaviour of its
  copy constructor (which may throw), and the behaviour of calling a value
  of that type (which may throw).
- Values (payloads) are Nat; move construction preserves the payload.
- The storage slot (storage_t, one pointer wide) is modelled by a tagged
  Slot: uninitialized bytes, an inline value, or a pointer into the heap.
  The C++ code reinterprets raw bytes; the tag records what the bytes
  currently hold, and reading bytes as the wrong shape (undefined
  behaviour in C++) is mapped to a junk result that well-formedness
  hypotheses rule out.
- The heap is an address-indexed partial map plus an allocation bound.
- Descriptor pointers are modelled by Option TypeId: get_func_descriptor
  returns one canonical static instance per concrete type T, and
  get_empty_func_descriptor one more distinct instance, so pointer
  identity of descriptors is exactly equality of Option TypeId (none is
  the empty singleton).
-/

namespace FunctionH

/-- Identifier of a concrete C++ type T. -/
abbrev TypeId := Nat

/-- The semantic value held by a callable object. -/
abbrev Payload := Nat

/-- Heap address. -/
abbrev Addr := Nat

/-- An argument passed to operator(). -/
abbrev Arg := Nat

/-- The return value R of an invocation. -/
abbrev Ret := Nat

/-- Static and behavioural data of one concrete C++ type T: sizeof(T),
alignof(T), whether T is nothrow move constructible, the copy constructor
of T (Except carries a thrown exception), and what calling a value of T
with a list of arguments does. -/
structure TypeInfo where
  size : Nat
  alignment : Nat
  nothrowMoveCtor : Bool
  copyCtor : Payload → Except Nat Payload
  callFn : Payload → List Arg → Except Nat Ret

/-- The ambient collection of concrete types. -/
abbrev Env := TypeId → TypeInfo

/-- Models sizeof(void*) on the target platform (LP64). -/
def ptrSize : Nat := 8

/-- Models alignof(storage_t) = alignof(void*) on the target platform. -/
def alignStorage : Nat := 8

/-- Translation of lines 13-16 of function.h:
is_small T = sizeof(T) <= sizeof(void*) and T nothrow move constructible
and alignof(storage_t) % alignof(T) == 0, in the order the source
writes the conjuncts. -/
def is_small (env : Env) (t : TypeId) : Bool :=
  decide ((env t).size ≤ ptrSize) && (env t).nothrowMoveCtor &&
    decide (alignStorage % (env t).alignment = 0)

/-- Contents of the one-pointer-wide storage_t slot. -/
inductive Slot where
  | uninit
  | inline (v : Payload)
  | ptr (a : Addr)
  deriving DecidableEq, Repr

/-- The heap: a partial map from addresses to payloads, plus the next
fresh address (every address at or above next is unallocated). -/
structure Heap where
  mem : Addr → Option Payload
  next : Addr

/-- Allocation invariant of the heap. -/
def Heap.WF (h : Heap) : Prop :=
  ∀ a, h.next ≤ a → h.mem a = none

/-- Models operator new: returns a fresh address holding the payload. -/
def Heap.alloc (h : Heap) (v : Payload) : Addr × Heap :=
  (h.next, ⟨fun a => if a = h.next then some v else h.mem a, h.next + 1⟩)

/-- Models operator delete at an address. -/
def Heap.free (h : Heap) (a : Addr) : Heap :=
  ⟨fun x => if x = a then none else h.mem x, h.next⟩

/-- Overwrites the payload at an allocated address (mutation through a
pointer obtained from target). -/
def Heap.write (h : Heap) (a : Addr) (v : Payload) : Heap :=
  ⟨fun x => if x = a then some v else h.mem x, h.next⟩

/-- A typed pointer as returned by get_pointer or target: a view into the
storage slot itself (small types), a heap pointer (indirect types), or
null. -/
inductive TPtr where
  | slotPtr
  | heapPtr (a : Addr)
  | null
  deriving DecidableEq, Repr

/-- Translation of get_pointer (lines 18-34 of function.h): for small T
the address of the buffer itself, otherwise the slot bytes read as a
pointer. Reading a pointer out of bytes that never held one is undefined
behaviour in the source; the model returns null there, and the theorems
exclude that case through well-formedness hypotheses. -/
def get_pointer (env : Env) (t : TypeId) (buf : Slot) : TPtr :=
  if is_small env t then TPtr.slotPtr
  else
    match buf with
    | Slot.ptr a => TPtr.heapPtr a
    | _ => TPtr.null

/-- Dereference of get_pointer on a slot: the payload of type t reachable
from the slot, if the slot is consistent with t. -/
def derefSlot (env : Env) (t : TypeId) (h : Heap) (s : Slot) : Option Payload :=
  if is_small env t then
    match s with
    | Slot.inline v => some v
    | _ => none
  else
    match s with
    | Slot.ptr a => h.mem a
    | _ => none

/-- A descriptor pointer: none is the empty singleton record returned by
get_empty_func_descriptor, some t the canonical record returned by
get_func_descriptor for concrete type t. Distinct constructors model
distinct static objects, so equality here is pointer identity there. -/
abbrev Desc := Option TypeId

/-- Outcome of operator(): the bad_function_call exception, an exception
thrown by the held callable, or undefined behaviour (never reached under
the well-formedness hypotheses). -/
inductive CppErr where
  | badCall
  | user (e : Nat)
  | ub
  deriving DecidableEq, Repr

/-- Translation of the copy operation of the records (lines 45 and 57-63):
the empty record does nothing; the record of t dereferences src, runs the
copy constructor of t, and places the copy inline (small) or behind a
fresh heap allocation (indirect). Throws whatever the copy constructor
throws, with no net heap effect in that case. -/
def descCopy (env : Env) (d : Desc) (h : Heap) (src dst : Slot) :
    Except Nat (Slot × Heap) :=
  match d with
  | none => Except.ok (dst, h)
  | some t =>
    match derefSlot env t h src with
    | none => Except.ok (dst, h)
    | some v =>
      match (env t).copyCtor v with
      | Except.error e => Except.error e
      | Except.ok w =>
        if is_small env t then Except.ok (Slot.inline w, h)
        else
          let (a, h1) := h.alloc w
          Except.ok (Slot.ptr a, h1)

/-- Translation of the move operation of the records (lines 46 and 64-70):
the empty record does nothing; for small t the value is move-constructed
into dst and the moved-from object in src is destroyed (src bytes become
uninitialized); for indirect t the raw owning pointer is copied from src
to dst, src still holding the same pointer value. Returns the new dst and
src slots; never throws and never touches the heap. -/
def descMove (env : Env) (d : Desc) (src dst : Slot) : Slot × Slot :=
  match d with
  | none => (dst, src)
  | some t =>
    if is_small env t then
      match src with
      | Slot.inline v => (Slot.inline v, Slot.uninit)
      | _ => (dst, src)
    else
      match src with
      | Slot.ptr a => (Slot.ptr a, Slot.ptr a)
      | _ => (dst, src)

/-- Translation of the destroy operation of the records (lines 47 and
72-77): the empty record does nothing; small t runs the destructor in
place (no heap effect); indirect t deletes the heap-owned object. -/
def descDestroy (env : Env) (d : Desc) (h : Heap) (s : Slot) : Heap :=
  match d with
  | none => h
  | some t =>
    if is_small env t then h
    else
      match s with
      | Slot.ptr a => h.free a
      | _ => h

/-- Translation of the invoke operation of the records (lines 48-50 and
79-81): the empty record throws bad_function_call without reading the
slot; the record of t dereferences the slot and calls the held value,
propagating its exceptions unchanged. -/
def descInvoke (env : Env) (d : Desc) (h : Heap) (s : Slot)
    (args : List Arg) : Except CppErr Ret :=
  match d with
  | none => Except.error CppErr.badCall
  | some t =>
    match derefSlot env t h s with
    | none => Except.error CppErr.ub
    | some v => ((env t).callFn v args).mapError CppErr.user

/-- The container: the bound descriptor pointer and the storage slot
(lines 174-175 of function.h). -/
structure function where
  desc : Desc
  buf : Slot
  deriving DecidableEq, Repr

/-- Translation of the default constructor (lines 91-92): binds the empty
descriptor; the slot stays uninitialized. -/
def function.empty : function :=
  ⟨none, Slot.uninit⟩

/-- Translation of the converting constructor function(T val)
(lines 103-111): binds the canonical record of t and move-constructs the
value into the slot, inline for small t, behind a fresh allocation
otherwise. -/
def function.ofVal (env : Env) (t : TypeId) (v : Payload) (h : Heap) :
    function × Heap :=
  if is_small env t then (⟨some t, Slot.inline v⟩, h)
  else
    let (a, h1) := h.alloc v
    (⟨some t, Slot.ptr a⟩, h1)

/-- Translation of the copy constructor (lines 94-96): binds the
descriptor of the source and runs its copy operation from the source slot
into the fresh slot. Propagates the exception of the copy constructor of
the held type. -/
def function.copyCon (env : Env) (other : function) (h : Heap) :
    Except Nat (function × Heap) :=
  match descCopy env other.desc h other.buf Slot.uninit with
  | Except.error e => Except.error e
  | Except.ok (b, h1) => Except.ok (⟨other.desc, b⟩, h1)

/-- Translation of the move constructor (lines 98-101): binds the
descriptor of the source, runs its move operation from the source slot
into the fresh slot, then rebinds the source to the empty descriptor.
Returns the new container and the source after the move; total, and the
heap is not touched at all. -/
def function.moveCon (env : Env) (other : function) : function × function :=
  let (b, srcBuf) := descMove env other.desc other.buf Slot.uninit
  (⟨other.desc, b⟩, ⟨none, srcBuf⟩)

/-- Translation of operator bool (lines 138-140): pointer comparison of
the bound descriptor against the empty singleton. -/
def function.toBool (c : function) : Bool :=
  decide (c.desc ≠ none)

/-- Translation of operator() (lines 142-148): if the container is empty,
throw bad_function_call before touching the slot; otherwise forward to
the invoke operation of the bound record. -/
def function.call (env : Env) (c : function) (h : Heap)
    (args : List Arg) : Except CppErr Ret :=
  if (!c.toBool) = true then Except.error CppErr.badCall
  else descInvoke env c.desc h c.buf args

/-- Translation of target (lines 150-164): identity comparison of the
bound descriptor against the canonical record of t; on match, the
get_pointer view into the slot, otherwise null. Takes no heap and
cannot throw. -/
def function.target (env : Env) (t : TypeId) (c : function) : TPtr :=
  if c.desc = some t then get_pointer env t c.buf else TPtr.null

/-- Dereference of a typed pointer relative to the container whose slot
it may point into: models reading through the result of target. -/
def readPtr (c : function) (h : Heap) (p : TPtr) : Option Payload :=
  match p with
  | TPtr.slotPtr =>
    match c.buf with
    | Slot.inline v => some v
    | _ => none
  | TPtr.heapPtr a => h.mem a
  | TPtr.null => none

/-- Writing a new payload through a typed pointer relative to the
container whose slot it may point into: models mutating the held value
through the result of target. Writing through null is undefined
behaviour and modelled as a no-op. -/
def writePtr (c : function) (h : Heap) (p : TPtr) (w : Payload) :
    function × Heap :=
  match p with
  | TPtr.slotPtr => (⟨c.desc, Slot.inline w⟩, h)
  | TPtr.heapPtr a => (c, h.write a w)
  | TPtr.null => (c, h)

/-- Translation of move assignment for this distinct from rhs
(lines 122-132): destroy the current payload, adopt the descriptor of
rhs, run its move operation from the slot of rhs into the own slot, and
rebind rhs to the empty descriptor. Total: never throws. -/
def function.moveAssign (env : Env) (lhs rhs : function) (h : Heap) :
    function × function × Heap :=
  let h1 := descDestroy env lhs.desc h lhs.buf
  let (b, srcBuf) := descMove env rhs.desc rhs.buf lhs.buf
  (⟨rhs.desc, b⟩, ⟨none, srcBuf⟩, h1)

/-- Translation of the self-assignment short circuit shared by both
assignment operators (lines 114-116 and 123-125): when this equals the
address of rhs, return *this with nothing done. -/
def function.assignSelf (c : function) (h : Heap) : function × Heap :=
  (c, h)

/-- Translation of swap (lines 168-172), called with a as *this and b as
other: move-construct tmp from a, move-assign b into a, move-assign tmp
into b; tmp is then destroyed at the end of the scope (it is empty, a
no-op kept for faithfulness). -/
def function.swap (env : Env) (a b : function) (h : Heap) :
    function × function × Heap :=
  let (tmp, a1) := function.moveCon env a
  let (a2, b1, h1) := function.moveAssign env a1 b h
  let (b2, tmp1, h2) := function.moveAssign env b1 tmp h1
  let h3 := descDestroy env tmp1.desc h2 tmp1.buf
  (a2, b2, h3)

/-- Translation of copy assignment for this distinct from rhs
(lines 113-120): copy-construct a temporary from rhs, swap it with
*this, destroy the temporary (now holding the old payload of *this) at
the end of the statement. Returns the thrown exception (if any) together
with the resulting lhs and heap; when the copy constructor throws,
nothing has been mutated yet, so lhs and the heap are returned as given. -/
def function.copyAssign (env : Env) (lhs rhs : function) (h : Heap) :
    Option Nat × function × Heap :=
  match function.copyCon env rhs h with
  | Except.error e => (some e, lhs, h)
  | Except.ok (tmp, h1) =>
    let (tmp2, lhs2, h2) := function.swap env tmp lhs h1
    let h3 := descDestroy env tmp2.desc h2 tmp2.buf
    (none, lhs2, h3)

/-- The container c currently holds the value v of concrete type t: it is
bound to the canonical record of t and the slot dereferences to v. -/
def Holds (env : Env) (h : Heap) (c : function) (t : TypeId)
    (v : Payload) : Prop :=
  c.desc = some t ∧ derefSlot env t h c.buf = some v

/-- Two containers never alias heap storage: an ownership invariant of
the container (no payload is owned by two live containers). -/
def SeparateSlots (c1 c2 : function) : Prop :=
  ∀ a, c1.buf = Slot.ptr a → c2.buf ≠ Slot.ptr a


/-- Concrete collection of types used by the witnesses: type 0 is small
(4 bytes, aligned, nothrow move), type 1 is indirect (64 bytes), type 2
is indirect with a throwing copy constructor and a throwing call, and
all remaining ids name pairwise distinct types with identical size,
alignment and behaviour. -/
def envW : Env := fun t =>
  if t = 0 then ⟨4, 4, true, fun v => Except.ok v,
    fun v args => Except.ok (v + args.length)⟩
  else if t = 1 then ⟨64, 8, false, fun v => Except.ok v,
    fun v args => Except.ok (v + 10 * args.length)⟩
  else if t = 2 then ⟨64, 8, false, fun _ => Except.error 7,
    fun _ _ => Except.error 9⟩
  else ⟨4, 4, true, fun v => Except.ok v,
    fun v args => Except.ok (v + args.length)⟩

/-- The empty heap. -/
def h0 : Heap := ⟨fun _ => none, 0⟩

/-- A heap with one allocated cell: address 0 holds payload 5. -/
def hW1 : Heap := ⟨fun a => if a = 0 then some 5 else none, 1⟩

/-- A heap with two allocated cells: address 0 holds 5, address 1
holds 9. -/
def hW2 : Heap :=
  ⟨fun a => if a = 0 then some 5 else if a = 1 then some 9 else none, 2⟩

/-- Inversion: a slot that dereferences to v at a small type holds v
inline. -/
theorem derefSlot_small_inv (env : Env) (t : TypeId) (h : Heap) (s : Slot)
    (v : Payload) (hs : is_small env t = true)
    (hd : derefSlot env t h s = some v) : s = Slot.inline v := by
  unfold derefSlot at hd
  rw [hs] at hd
  cases s <;> simp_all

/-- Inversion: a slot that dereferences to v at an indirect type holds a
pointer to an allocated cell containing v. -/
theorem derefSlot_large_inv (env : Env) (t : TypeId) (h : Heap) (s : Slot)
    (v : Payload) (hs : is_small env t = false)
    (hd : derefSlot env t h s = some v) :
    ∃ a, s = Slot.ptr a ∧ h.mem a = some v := by
  unfold derefSlot at hd
  rw [hs] at hd
  cases s <;> simp_all

/-- The destroy operation leaves every heap cell alone except the one the
destroyed slot may point to. -/
theorem descDestroy_mem_ne (env : Env) (d : Desc) (h : Heap) (s : Slot)
    (a : Addr) (hne : ∀ b, s = Slot.ptr b → b ≠ a) :
    (descDestroy env d h s).mem a = h.mem a := by
  cases d with
  | none => rfl
  | some t =>
    by_cases hs : is_small env t = true
    · simp [descDestroy, hs]
    · rw [Bool.not_eq_true] at hs
      cases s with
      | ptr b =>
        have hb : b ≠ a := hne b rfl
        simp [descDestroy, hs, Heap.free, Ne.symm hb]
      | uninit => simp [descDestroy, hs]
      | inline v => simp [descDestroy, hs]

/-- C4: for every concrete type t and value v, constructing a container
from v and dereferencing the result of target at t yields exactly v,
covering both the small (inline) branch and the indirect (heap) branch
of the constructor. -/
theorem C4_round_trip (env : Env) (t : TypeId) (v : Payload) (h : Heap) :
    readPtr (function.ofVal env t v h).1 (function.ofVal env t v h).2
      (function.target env t (function.ofVal env t v h).1) = some v := by
  by_cases hs : is_small env t = true
  · simp [function.ofVal, function.target, get_pointer, readPtr, hs]
  · rw [Bool.not_eq_true] at hs
    simp [function.ofVal, function.target, get_pointer, readPtr, hs,
      Heap.alloc]

/-- Definition following the wording of the spec: is_small(T) is
sizeof(T) <= pointer_size AND alignof(pointer_size_storage) % alignof(T)
== 0 AND T has a non-throwing move constructor, in the order the spec
lists the conjuncts. -/
def is_small_spec (env : Env) (t : TypeId) : Bool :=
  decide ((env t).size ≤ ptrSize) &&
    decide (alignStorage % (env t).alignment = 0) &&
    (env t).nothrowMoveCtor

/-- C7: the small-type classification of the source coincides with the
predicate stated by the spec, its propositional reading is exactly the
three conjuncts, and the operations that touch a value of type t branch
on this same predicate: get_pointer yields the inline view exactly for
small t, and the converting constructor stores inline exactly for
small t. -/
theorem C7_is_small_characterization (env : Env) (t : TypeId) :
    is_small env t = is_small_spec env t ∧
    (is_small env t = true ↔
      (env t).size ≤ ptrSize ∧ (env t).nothrowMoveCtor = true ∧
        alignStorage % (env t).alignment = 0) ∧
    (∀ s : Slot, get_pointer env t s = TPtr.slotPtr ↔ is_small env t = true) ∧
    (∀ (v : Payload) (h : Heap),
      (function.ofVal env t v h).1.buf = Slot.inline v ↔
        is_small env t = true) := by
  refine ⟨?_, ?_, ?_, ?_⟩
  · unfold is_small is_small_spec
    cases hn : (env t).nothrowMoveCtor <;>
      cases h1 : decide ((env t).size ≤ ptrSize) <;>
        cases h2 : decide (alignStorage % (env t).alignment = 0) <;> rfl
  · unfold is_small
    simp [and_assoc]
  · intro s
    constructor
    · intro hg
      by_contra hs
      rw [Bool.not_eq_true] at hs
      unfold get_pointer at hg
      rw [hs] at hg
      cases s <;> simp_all
    · intro hs
      simp [get_pointer, hs]
  · intro v h
    constructor
    · intro hb
      by_contra hs
      rw [Bool.not_eq_true] at hs
      simp [function.ofVal, hs, Heap.alloc] at hb
    · intro hs
      simp [function.ofVal, hs]

/-- C8: a default-constructed container is empty: its boolean query is
false, target yields null at every type, and dereferencing that result
gives nothing; the constructor is total and touches no heap. -/
theorem C8_default_empty (env : Env) :
    function.empty.toBool = false ∧
    (∀ t : TypeId, function.target env t function.empty = TPtr.null) ∧
    (∀ (t : TypeId) (h : Heap),
      readPtr function.empty h (function.target env t function.empty) =
        none) := by
  refine ⟨rfl, ?_, ?_⟩
  · intro t
    simp [function.target, function.empty]
  · intro t h
    simp [function.target, function.empty, readPtr]

/-- C10: a container constructed from a value of any concrete type t is
non-empty: it is bound to the canonical record of t, which is a distinct
object from the empty singleton, so the boolean query (an identity
comparison against that singleton) returns true. -/
theorem C10_ofVal_nonempty (env : Env) (t : TypeId) (v : Payload)
    (h : Heap) :
    (function.ofVal env t v h).1.toBool = true ∧
    (function.ofVal env t v h).1.desc = some t ∧
    (some t : Desc) ≠ (none : Desc) := by
  by_cases hs : is_small env t = true
  · simp [function.ofVal, function.toBool, hs]
  · rw [Bool.not_eq_true] at hs
    simp [function.ofVal, function.toBool, hs, Heap.alloc]

/-- C1: invoking an empty container throws bad_function_call whatever the
slot bytes and the heap hold, so the failure is raised before any access
to the storage slot; invoking a non-empty container forwards to the held
value, returning exactly what its call returns and propagating its
exceptions unchanged. -/
theorem C1_call_semantics (env : Env) (c : function) (h : Heap)
    (args : List Arg) :
    (c.desc = none → function.call env c h args =
      Except.error CppErr.badCall) ∧
    (∀ (t : TypeId) (v : Payload), Holds env h c t v →
      function.call env c h args =
        ((env t).callFn v args).mapError CppErr.user) := by
  constructor
  · intro hd
    simp [function.call, function.toBool, hd]
  · rintro t v ⟨hd, hv⟩
    simp [function.call, function.toBool, hd, descInvoke, hv]

/-- Witness for C1: the empty container throws bad_function_call, and a
container holding the small callable of type 0 with capture 5 returns
5 + 2 on two arguments. -/
theorem C1_call_semantics_witness :
    function.call envW function.empty h0 [] =
      Except.error CppErr.badCall ∧
    function.call envW ⟨some 0, Slot.inline 5⟩ h0 [1, 2] =
      Except.ok 7 := by
  constructor
  · exact (C1_call_semantics envW function.empty h0 []).1 rfl
  · have hc := (C1_call_semantics envW ⟨some 0, Slot.inline 5⟩ h0
      [1, 2]).2 0 5 ⟨rfl, by decide⟩
    rw [hc]
    rfl

/-- C2: move construction from a container holding value v of type t
leaves the source empty (its boolean query is false and it is bound to
the empty record) while the new container holds v; the operation is a
total function of the source and never touches the heap, so it cannot
fail. -/
theorem C2_move_transfers (env : Env) (c1 : function) (h : Heap)
    (t : TypeId) (v : Payload) (hw : Holds env h c1 t v) :
    (function.moveCon env c1).2.toBool = false ∧
    (function.moveCon env c1).2.desc = none ∧
    Holds env h (function.moveCon env c1).1 t v := by
  obtain ⟨hd, hv⟩ := hw
  by_cases hs : is_small env t = true
  · have hb := derefSlot_small_inv env t h c1.buf v hs hv
    simp [function.moveCon, descMove, hd, hb, hs, function.toBool, Holds,
      derefSlot]
  · rw [Bool.not_eq_true] at hs
    obtain ⟨a, hb, hm⟩ := derefSlot_large_inv env t h c1.buf v hs hv
    simp [function.moveCon, descMove, hd, hb, hs, function.toBool, Holds,
      derefSlot, hm]

/-- Witness for C2: moving out of a container holding the indirect type 1
with payload 5 behind address 0 leaves the source empty and the new
container holding 5. -/
theorem C2_move_transfers_witness :
    (function.moveCon envW ⟨some 1, Slot.ptr 0⟩).2.toBool = false ∧
    (function.moveCon envW ⟨some 1, Slot.ptr 0⟩).2.desc = none ∧
    Holds envW hW1 (function.moveCon envW ⟨some 1, Slot.ptr 0⟩).1 1 5 :=
  C2_move_transfers envW ⟨some 1, Slot.ptr 0⟩ hW1 1 5 ⟨rfl, by decide⟩

/-- C5: target at type t returns a non-null view that dereferences to the
held value exactly when the container is bound to the canonical record
of t; whenever the bound descriptor differs from the record of t - the
container being empty, or holding any other type id, including one whose
size, alignment and behaviour coincide with those of t - the result is
null. The operation takes no heap and returns no Except: it can neither
allocate nor throw. -/
theorem C5_target_characterization (env : Env) (t : TypeId)
    (c : function) (h : Heap) :
    (∀ v : Payload, Holds env h c t v →
      function.target env t c ≠ TPtr.null ∧
      readPtr c h (function.target env t c) = some v) ∧
    (c.desc ≠ some t → function.target env t c = TPtr.null) := by
  constructor
  · rintro v ⟨hd, hv⟩
    by_cases hs : is_small env t = true
    · have hb := derefSlot_small_inv env t h c.buf v hs hv
      simp [function.target, get_pointer, readPtr, hd, hb, hs]
    · rw [Bool.not_eq_true] at hs
      obtain ⟨a, hb, hm⟩ := derefSlot_large_inv env t h c.buf v hs hv
      simp [function.target, get_pointer, readPtr, hd, hb, hs, hm]
  · intro hd
    simp [function.target, hd]

/-- Witness for C5: a container bound to type 0 yields a non-null view
reading back 5, and a container bound to type 4 queried at type 3 - two
distinct type ids with identical size, alignment and behaviour in
envW - yields null. -/
theorem C5_target_characterization_witness :
    (function.target envW 0 ⟨some 0, Slot.inline 5⟩ ≠ TPtr.null ∧
     readPtr ⟨some 0, Slot.inline 5⟩ h0
       (function.target envW 0 ⟨some 0, Slot.inline 5⟩) = some 5) ∧
    function.target envW 3 ⟨some 4, Slot.inline 5⟩ = TPtr.null :=
  ⟨(C5_target_characterization envW 0 ⟨some 0, Slot.inline 5⟩ h0).1 5
      ⟨rfl, by decide⟩,
   (C5_target_characterization envW 3 ⟨some 4, Slot.inline 5⟩ h0).2
      (by decide)⟩

/-- C3: copy-assignment is copy-construct-into-temporary then swap; when
the copy constructor of the held type of the source throws, the whole
assignment propagates that exception with the target container and the
heap exactly as they were (strong exception guarantee), and
self-assignment is short-circuited to return the target unchanged. -/
theorem C3_copyAssign_strong (env : Env) (lhs rhs : function) (h : Heap)
    (t : TypeId) (v : Payload) (e : Nat)
    (hw : Holds env h rhs t v)
    (he : (env t).copyCtor v = Except.error e) :
    function.copyAssign env lhs rhs h = (some e, lhs, h) ∧
    (∀ (c : function) (hh : Heap), function.assignSelf c hh = (c, hh)) := by
  obtain ⟨hd, hv⟩ := hw
  refine ⟨?_, fun c hh => rfl⟩
  simp [function.copyAssign, function.copyCon, descCopy, hd, hv, he]

/-- Witness for C3: assigning from a container of type 2, whose copy
constructor throws exception 7, leaves the target holding its inline 3
and the heap untouched, and the exception surfaces. -/
theorem C3_copyAssign_strong_witness :
    function.copyAssign envW ⟨some 0, Slot.inline 3⟩ ⟨some 2, Slot.ptr 0⟩
        hW1 =
      (some 7, ⟨some 0, Slot.inline 3⟩, hW1) :=
  (C3_copyAssign_strong envW ⟨some 0, Slot.inline 3⟩ ⟨some 2, Slot.ptr 0⟩
    hW1 2 5 7 ⟨rfl, by decide⟩ rfl).1

/-- C6: move-assignment from a distinct source destroys the old payload
of the target (an indirect payload of the target is freed), adopts the
record of the source and transfers its slot contents, and leaves the
source bound to the empty record with its boolean query false; the
operation is a total function, and the self-assignment short circuit of
both assignment operators returns the container unchanged before any
destructive step. -/
theorem C6_moveAssign_semantics (env : Env) (lhs rhs : function)
    (h : Heap) (t : TypeId) (v : Payload)
    (hw : Holds env h rhs t v) (hsep : SeparateSlots lhs rhs) :
    (function.moveAssign env lhs rhs h).1.desc = rhs.desc ∧
    Holds env (function.moveAssign env lhs rhs h).2.2
      (function.moveAssign env lhs rhs h).1 t v ∧
    (function.moveAssign env lhs rhs h).2.1.desc = none ∧
    (function.moveAssign env lhs rhs h).2.1.toBool = false ∧
    (∀ (tl : TypeId) (b : Addr), lhs.desc = some tl →
      is_small env tl = false → lhs.buf = Slot.ptr b →
      (function.moveAssign env lhs rhs h).2.2.mem b = none) ∧
    (∀ (c : function) (hh : Heap), function.assignSelf c hh = (c, hh)) := by
  obtain ⟨hd, hv⟩ := hw
  by_cases hs : is_small env t = true
  · have hb := derefSlot_small_inv env t h rhs.buf v hs hv
    refine ⟨?_, ?_, ?_, ?_, ?_, fun c hh => rfl⟩
    · simp [function.moveAssign, descMove, hd, hb, hs]
    · refine ⟨?_, ?_⟩
      · simp [function.moveAssign, descMove, hd, hb, hs]
      · simp [function.moveAssign, descMove, hd, hb, hs, derefSlot]
    · simp [function.moveAssign, descMove, hd, hb, hs]
    · simp [function.moveAssign, descMove, hd, hb, hs, function.toBool]
    · intro tl b hdl hsl hbl
      simp [function.moveAssign, descMove, hd, hb, hs, descDestroy, hdl,
        hsl, hbl, Heap.free]
  · rw [Bool.not_eq_true] at hs
    obtain ⟨a, hb, hm⟩ := derefSlot_large_inv env t h rhs.buf v hs hv
    have hne : ∀ b, lhs.buf = Slot.ptr b → b ≠ a := by
      intro b hbl hba
      rw [hba] at hbl
      exact hsep a hbl hb
    have hmem : (descDestroy env lhs.desc h lhs.buf).mem a = h.mem a :=
      descDestroy_mem_ne env lhs.desc h lhs.buf a hne
    refine ⟨?_, ?_, ?_, ?_, ?_, fun c hh => rfl⟩
    · simp [function.moveAssign, descMove, hd, hb, hs]
    · refine ⟨?_, ?_⟩
      · simp [function.moveAssign, descMove, hd, hb, hs]
      · simp [function.moveAssign, descMove, hd, hb, hs, derefSlot, hmem,
          hm]
    · simp [function.moveAssign, descMove, hd, hb, hs]
    · simp [function.moveAssign, descMove, hd, hb, hs, function.toBool]
    · intro tl b hdl hsl hbl
      simp [function.moveAssign, descMove, hd, hb, hs, descDestroy, hdl,
        hsl, hbl, Heap.free]

/-- Witness for C6: the target holds the indirect payload at address 0
and the source holds 9 at address 1; after move-assignment the target
holds 9, the source is empty, and address 0 has been freed. -/
theorem C6_moveAssign_semantics_witness :
    Holds envW
      (function.moveAssign envW ⟨some 1, Slot.ptr 0⟩ ⟨some 1, Slot.ptr 1⟩
        hW2).2.2
      (function.moveAssign envW ⟨some 1, Slot.ptr 0⟩ ⟨some 1, Slot.ptr 1⟩
        hW2).1 1 9 ∧
    (function.moveAssign envW ⟨some 1, Slot.ptr 0⟩ ⟨some 1, Slot.ptr 1⟩
      hW2).2.1.toBool = false ∧
    (function.moveAssign envW ⟨some 1, Slot.ptr 0⟩ ⟨some 1, Slot.ptr 1⟩
      hW2).2.2.mem 0 = none := by
  have hc := C6_moveAssign_semantics envW ⟨some 1, Slot.ptr 0⟩
    ⟨some 1, Slot.ptr 1⟩ hW2 1 9 ⟨rfl, by decide⟩
    (by
      intro a hx
      have h1 : Slot.ptr 0 = Slot.ptr a := hx
      injection h1 with h2
      subst h2
      decide)
  exact ⟨hc.2.1, hc.2.2.2.1, hc.2.2.2.2.1 1 0 rfl (by decide) rfl⟩

/-- C9: copy construction from a container holding value v of a type
with an honest copy constructor succeeds, the copy reads back equal to
the source, and the two are fully independent: writing a new value
through the view of the copy takes effect on the copy while the view of
the source still reads the original value (indirect payloads are placed
behind a fresh allocation). -/
theorem C9_copy_independence (env : Env) (c1 : function) (h : Heap)
    (t : TypeId) (v w : Payload)
    (hWF : Heap.WF h) (hw : Holds env h c1 t v)
    (hc : (env t).copyCtor v = Except.ok v) :
    ∃ c2 h1, function.copyCon env c1 h = Except.ok (c2, h1) ∧
      readPtr c2 h1 (function.target env t c2) = some v ∧
      readPtr (writePtr c2 h1 (function.target env t c2) w).1
        (writePtr c2 h1 (function.target env t c2) w).2
        (function.target env t
          (writePtr c2 h1 (function.target env t c2) w).1) = some w ∧
      readPtr c1 (writePtr c2 h1 (function.target env t c2) w).2
        (function.target env t c1) = some v := by
  obtain ⟨hd, hv⟩ := hw
  by_cases hs : is_small env t = true
  · have hb := derefSlot_small_inv env t h c1.buf v hs hv
    refine ⟨⟨some t, Slot.inline v⟩, h, ?_, ?_, ?_, ?_⟩
    · simp [function.copyCon, descCopy, hd, hv, hc, hs]
    · simp [function.target, get_pointer, readPtr, hs]
    · simp [function.target, get_pointer, readPtr, writePtr, hs]
    · simp [function.target, get_pointer, readPtr, writePtr, hd, hb, hs]
  · rw [Bool.not_eq_true] at hs
    obtain ⟨a, hb, hm⟩ := derefSlot_large_inv env t h c1.buf v hs hv
    have ha : a < h.next := by
      by_contra hlt
      push_neg at hlt
      rw [hWF a hlt] at hm
      exact Option.noConfusion hm
    have hane : a ≠ h.next := Nat.ne_of_lt ha
    refine ⟨⟨some t, Slot.ptr h.next⟩, (h.alloc v).2, ?_, ?_, ?_, ?_⟩
    · simp [function.copyCon, descCopy, hd, hv, hc, hs, Heap.alloc]
    · simp [function.target, get_pointer, readPtr, hs, Heap.alloc]
    · simp [function.target, get_pointer, readPtr, writePtr, hs,
        Heap.alloc, Heap.write]
    · simp [function.target, get_pointer, readPtr, writePtr, hd, hb, hs,
        Heap.alloc, Heap.write, hane, hm]

/-- Witness for C9: copying a container with the indirect payload 5 at
address 0 allocates the copy at address 1; writing 100 through the view
of the copy leaves the view of the source reading 5. -/
theorem C9_copy_independence_witness :
    ∃ c2 h1, function.copyCon envW ⟨some 1, Slot.ptr 0⟩ hW1 =
        Except.ok (c2, h1) ∧
      readPtr c2 h1 (function.target envW 1 c2) = some 5 ∧
      readPtr (writePtr c2 h1 (function.target envW 1 c2) 100).1
        (writePtr c2 h1 (function.target envW 1 c2) 100).2
        (function.target envW 1
          (writePtr c2 h1 (function.target envW 1 c2) 100).1) =
        some 100 ∧
      readPtr ⟨some 1, Slot.ptr 0⟩
        (writePtr c2 h1 (function.target envW 1 c2) 100).2
        (function.target envW 1 ⟨some 1, Slot.ptr 0⟩) = some 5 :=
  C9_copy_independence envW ⟨some 1, Slot.ptr 0⟩ hW1 1 5 100
    (by
      intro a ha
      have h1 : 1 ≤ a := ha
      have hne : a ≠ 0 := Nat.one_le_iff_ne_zero.mp h1
      simp [hW1, hne])
    ⟨rfl, by decide⟩ rfl

end FunctionH
